import Mathlib

/-!
Shallow embedding of the computational core of src/sustainable_energy_app.py
(the LAB_DV repository): data loading with lenient numeric coercion,
latest-year snapshot selection, the Sustainability Score, min-max
normalization and the Investment Score, and the recommendation
filter-and-sort. Floating point numbers are modelled by `ℚ`; a pandas NaN
(missing value) is modelled by `none : Option ℚ`.
-/

/-- A raw CSV cell of one of the three columns that load_data coerces with
pd.to_numeric in coerce mode: it either parses as a number, is non-numeric
text, or is empty (missing). -/
inductive Cell where
  | num (q : ℚ)
  | text (s : String)
  | empty
deriving DecidableEq

/-- The effect of pd.to_numeric in coerce mode on one cell: numeric values
pass through, non-numeric text and empty cells become missing (NaN).  The
function is total: no input raises an exception
(src/sustainable_energy_app.py line 17). -/
def toNumeric : Cell → Option ℚ
  | .num q => some q
  | .text _ => none
  | .empty => none

/-- One row of the CSV as read by pd.read_csv, before the numeric coercion of
load_data: the three coerced columns are raw cells, the remaining numeric
columns are already numbers-or-missing. -/
structure RawRow where
  entity : String
  year : Int
  renewable_share : Cell
  gdp_per_capita : Cell
  co2 : Cell
  electricity_access : Option ℚ
  capacity : Option ℚ
  energy_intensity : Option ℚ
deriving DecidableEq

/-- One row of the dataframe after load_data coerced the three numeric
columns (src/sustainable_energy_app.py lines 14-17).  Names follow the
CSV columns: renewable_share is the renewable energy share column,
capacity the renewable-electricity-generating-capacity-per-capita column,
energy_intensity the energy intensity column. -/
structure Row where
  entity : String
  year : Int
  renewable_share : Option ℚ
  gdp_per_capita : Option ℚ
  co2 : Option ℚ
  electricity_access : Option ℚ
  capacity : Option ℚ
  energy_intensity : Option ℚ
deriving DecidableEq

/-- The per-row effect of the coercion loop of load_data (lines 16-17):
apply the lenient to-numeric conversion to the three listed columns, copy
the rest. -/
def loadRow (raw : RawRow) : Row where
  entity := raw.entity
  year := raw.year
  renewable_share := toNumeric raw.renewable_share
  gdp_per_capita := toNumeric raw.gdp_per_capita
  co2 := toNumeric raw.co2
  electricity_access := raw.electricity_access
  capacity := raw.capacity
  energy_intensity := raw.energy_intensity

/-- The expression df[Year].max() (line 20): the maximum Year over all rows;
none when the dataframe is empty (pandas would give NaN). -/
def latestYear (df : List Row) : Option Int :=
  match df.map Row.year with
  | [] => none
  | y :: ys => some (ys.foldl max y)

/-- The expression df[df[Year] == latest_year].copy() (line 21): the rows
whose Year equals the latest year.  The .copy() in the source makes the
snapshot independent of df, which licenses the pure-value model. -/
def latestSnapshot (df : List Row) : List Row :=
  df.filter (fun r => latestYear df = some r.year)

/-- The Sustainability Score of one row (lines 24-28): renewable share
(missing as 0) plus electricity access (missing as 0) plus
(100 - energy intensity (missing as 0) / 10).  No clamping. -/
def sustainabilityScore (r : Row) : ℚ :=
  (r.renewable_share).getD 0 + (r.electricity_access).getD 0 +
    (100 - (r.energy_intensity).getD 0 / 10)

/-- The four investment factor columns selected at lines 53-58. -/
inductive Factor where
  | access
  | renewable
  | gdp
  | capacity
deriving DecidableEq

/-- The value of one investment factor of one row after .fillna(0)
(line 58): missing becomes 0 before scaling. -/
def factorVal : Factor → Row → ℚ
  | .access, r => (r.electricity_access).getD 0
  | .renewable, r => (r.renewable_share).getD 0
  | .gdp, r => (r.gdp_per_capita).getD 0
  | .capacity, r => (r.capacity).getD 0

/-- One column of the investment_factors frame (lines 53-58): the values of
one factor across the snapshot, missing filled with 0. -/
def factorCol (f : Factor) (snap : List Row) : List ℚ :=
  snap.map (factorVal f)

/-- Minimum of a column, as column.min(); 0 on the empty column (unused
there). -/
def listMin : List ℚ → ℚ
  | [] => 0
  | [x] => x
  | x :: y :: xs => min x (listMin (y :: xs))

/-- Maximum of a column, as column.max(); 0 on the empty column (unused
there). -/
def listMax : List ℚ → ℚ
  | [] => 0
  | [x] => x
  | x :: y :: xs => max x (listMax (y :: xs))

/-- The MinMaxScaler fit-transform of sklearn on one column (lines 52-64),
default feature range (0,1): x maps to (x - min) / (max - min).  When
max = min the scaler internally replaces the zero denominator by 1
(the sklearn handle-zeros-in-scale rule), so every value of a constant
column maps to (x - min) / 1 = 0. -/
def minmaxNorm (xs : List ℚ) (x : ℚ) : ℚ :=
  if listMax xs = listMin xs then 0
  else (x - listMin xs) / (listMax xs - listMin xs)

/-- The scaled value of one factor of one row: one entry of
investment_factors_scaled (lines 60-64). -/
def normalizedFactor (f : Factor) (snap : List Row) (r : Row) : ℚ :=
  minmaxNorm (factorCol f snap) (factorVal f r)

/-- The Investment Score of one row of the snapshot (lines 66-71): weighted
sum of the four scaled factors with weights 0.3, 0.4, 0.2, 0.1. -/
def investmentScore (snap : List Row) (r : Row) : ℚ :=
  normalizedFactor .access snap r * 0.3 +
  normalizedFactor .renewable snap r * 0.4 +
  normalizedFactor .gdp snap r * 0.2 +
  normalizedFactor .capacity snap r * 0.1

/-- A snapshot row with the two derived columns that the script adds to
latest_df: Sustainability Score (line 24) and Investment Score (line 66). -/
structure ScoredRow where
  row : Row
  sustainability : ℚ
  invScore : ℚ
deriving DecidableEq

/-- The snapshot with both derived columns added: the latest_df dataframe
after lines 24-28 and 66-71 ran.  Adding columns builds new records; the
underlying Row fields are untouched. -/
def scoreSnapshot (snap : List Row) : List ScoredRow :=
  snap.map (fun r =>
    { row := r, sustainability := sustainabilityScore r,
      invScore := investmentScore snap r })

/-- A pandas comparison (series > threshold) on a possibly-missing value:
NaN > t evaluates to False. -/
def optGT (o : Option ℚ) (t : ℚ) : Bool :=
  match o with
  | some x => decide (t < x)
  | none => false

/-- The selection predicate of promising_countries (lines 153-157):
Investment Score > 0.7 and gdp_per_capita > 3000 and renewable share
> 20. -/
def passesFilter (sr : ScoredRow) : Bool :=
  decide ((0.7 : ℚ) < sr.invScore) &&
    optGT sr.row.gdp_per_capita 3000 &&
    optGT sr.row.renewable_share 20

/-- Insert one row into a list sorted ascending by Investment Score, before
the first row of score not below it. -/
def insertAsc (a : ScoredRow) : List ScoredRow → List ScoredRow
  | [] => [a]
  | b :: l => if a.invScore ≤ b.invScore then a :: b :: l else b :: insertAsc a l

/-- Ascending sort by Investment Score.  Models the ascending argsort inside
the pandas nargsort helper; insertion sort is stable (the numpy introsort
degenerates to stable insertion sort on small arrays, and stability is the
deterministic reading of the argsort). -/
def sortAscByScore : List ScoredRow → List ScoredRow
  | [] => []
  | a :: l => insertAsc a (sortAscByScore l)

/-- The descending sort of line 157 (sort_values on Investment Score with
ascending set to False).  The pandas nargsort helper reverses both the
values and the index array before taking the ascending argsort and reverses
the resulting indexer after, so the two reversals cancel on equal keys:
rows with equal Investment Score keep their input order (the stable
descending sort the pandas test suite asserts). -/
def sort_values_desc (l : List ScoredRow) : List ScoredRow :=
  (sortAscByScore l.reverse).reverse

/-- promising_countries (lines 153-157): filter the scored snapshot by the
three thresholds, then sort descending by Investment Score. -/
def promising_countries (scored : List ScoredRow) : List ScoredRow :=
  sort_values_desc (scored.filter passesFilter)

/-- load_data (lines 10-30) without the file read and the memo decorator:
coerce the three numeric columns, take the latest-year snapshot, and return
the full dataframe, the snapshot and the latest year.  The Sustainability
Score column added inside load_data, and the Investment Score column added
at top level, are both carried by scoreSnapshot in the full pipeline
below. -/
def load_data (raw : List RawRow) : List Row × List Row × Option Int :=
  let df := raw.map loadRow
  (df, latestSnapshot df, latestYear df)

/-- The whole computational pipeline of the script: parse, snapshot, score,
recommend.  Returns the full dataframe, the scored snapshot and the
recommendation list. -/
def pipeline (raw : List RawRow) : List Row × List ScoredRow × List ScoredRow :=
  let df := raw.map loadRow
  let scored := scoreSnapshot (latestSnapshot df)
  (df, scored, promising_countries scored)

/-- Modelled from the spec: the Sustainability Score formula exactly as
section 4.1 of the spec states it, for comparison with the implementation
formula. -/
def specSustainability (renew access intensity : Option ℚ) : ℚ :=
  renew.getD 0 + access.getD 0 + (100 - intensity.getD 0 / 10)

/-- Row A of the worked example of spec section 8, property 6: access 80,
renewable 50, gdp 5000, capacity 10. -/
def rowA : Row :=
  { entity := "A", year := 2020, renewable_share := some 50,
    gdp_per_capita := some 5000, co2 := none, electricity_access := some 80,
    capacity := some 10, energy_intensity := none }

/-- Row B of the worked example of spec section 8, property 6: access 20,
renewable 10, gdp 1000, capacity 1. -/
def rowB : Row :=
  { entity := "B", year := 2020, renewable_share := some 10,
    gdp_per_capita := some 1000, co2 := none, electricity_access := some 20,
    capacity := some 1, energy_intensity := none }

/-- A row with exactly the numeric values of row A but another country name:
it ties with row A on every factor and hence on the Investment Score. -/
def rowC : Row := { rowA with entity := "C" }

/-- A row from an earlier year, for exercising the latest-year filter. -/
def rowD : Row := { rowB with year := 2019 }

/-- A row whose large energy intensity drives the Sustainability Score
negative. -/
def rowNeg : Row :=
  { entity := "N", year := 2020, renewable_share := none,
    gdp_per_capita := none, co2 := none, electricity_access := none,
    capacity := none, energy_intensity := some 3000 }

/-- A row whose Sustainability Score exceeds 200. -/
def rowBig : Row :=
  { rowA with renewable_share := some 100, electricity_access := some 100 }

/-- Row A scored against the two-row snapshot of rows A and B. -/
def scoredA : ScoredRow := { row := rowA, sustainability := 230, invScore := 1 }

/-- Row B scored against any snapshot in which it holds every minimum. -/
def scoredB : ScoredRow := { row := rowB, sustainability := 130, invScore := 0 }

/-- Row C scored against the three-row snapshot of rows A, C and B. -/
def scoredC : ScoredRow := { row := rowC, sustainability := 230, invScore := 1 }

/-- A non-numeric token as it would appear in a malformed CSV cell. -/
def naText : String := "n/a"

/-- A raw row whose three coerced columns all hold non-numeric text. -/
def rawBad : RawRow :=
  { entity := "X", year := 2020, renewable_share := Cell.text naText,
    gdp_per_capita := Cell.text naText, co2 := Cell.text naText,
    electricity_access := none, capacity := none, energy_intensity := none }

theorem mem_insertAsc {x a : ScoredRow} : ∀ {l : List ScoredRow}, x ∈ insertAsc a l ↔ x = a ∨ x ∈ l
  | [] => by simp [insertAsc]
  | b :: t => by
    simp only [insertAsc]
    split
    · simp [List.mem_cons]
    · simp only [List.mem_cons, mem_insertAsc (l := t)]
      tauto

theorem mem_sortAscByScore {x : ScoredRow} : ∀ {l : List ScoredRow}, x ∈ sortAscByScore l ↔ x ∈ l
  | [] => Iff.rfl
  | a :: t => by
    simp only [sortAscByScore, mem_insertAsc, mem_sortAscByScore (l := t), List.mem_cons]

theorem mem_sort_values_desc {x : ScoredRow} {l : List ScoredRow} :
    x ∈ sort_values_desc l ↔ x ∈ l := by
  simp [sort_values_desc, List.mem_reverse, mem_sortAscByScore]

theorem mem_promising_countries {x : ScoredRow} {scored : List ScoredRow} :
    x ∈ promising_countries scored ↔ x ∈ scored ∧ passesFilter x = true := by
  simp [promising_countries, mem_sort_values_desc, List.mem_filter]

theorem filter_insertAsc (k : ℚ) (a : ScoredRow) :
    ∀ (l : List ScoredRow),
      (insertAsc a l).filter (fun x => decide (x.invScore = k)) =
        if a.invScore = k then a :: l.filter (fun x => decide (x.invScore = k))
        else l.filter (fun x => decide (x.invScore = k))
  | [] => by
    simp only [insertAsc, List.filter]
    by_cases hak : a.invScore = k <;> simp [hak]
  | b :: t => by
    simp only [insertAsc]
    by_cases hab : a.invScore ≤ b.invScore
    · rw [if_pos hab]
      simp only [List.filter_cons]
      split <;> split <;> simp_all
    · rw [if_neg hab]
      push_neg at hab
      simp only [List.filter_cons, filter_insertAsc k a t]
      by_cases hak : a.invScore = k
      · have hbk : ¬ b.invScore = k := by
          intro hbk
          rw [hak] at hab
          rw [hbk] at hab
          exact lt_irrefl k hab
        simp [hak, hbk]
      · by_cases hbk : b.invScore = k <;> simp [hak, hbk]

theorem filter_sortAscByScore (k : ℚ) :
    ∀ (l : List ScoredRow),
      (sortAscByScore l).filter (fun x => decide (x.invScore = k)) =
        l.filter (fun x => decide (x.invScore = k))
  | [] => rfl
  | a :: t => by
    simp only [sortAscByScore, filter_insertAsc, filter_sortAscByScore k t, List.filter_cons]
    split <;> simp_all

theorem sublist_sortAsc_of_tie {r1 r2 : ScoredRow} {l : List ScoredRow}
    (hsub : List.Sublist [r1, r2] l) (heq : r1.invScore = r2.invScore) :
    List.Sublist [r1, r2] (sortAscByScore l) := by
  have hpair : List.filter (fun x => decide (x.invScore = r1.invScore)) [r1, r2] = [r1, r2] := by
    simp [List.filter, heq]
  have h1 : List.Sublist [r1, r2] (List.filter (fun x => decide (x.invScore = r1.invScore)) l) :=
    hpair ▸ hsub.filter _
  rw [← filter_sortAscByScore r1.invScore l] at h1
  exact h1.trans (List.filter_sublist _)

theorem listMin_le_of_mem {x : ℚ} : ∀ {l : List ℚ}, x ∈ l → listMin l ≤ x
  | [], h => absurd h (List.not_mem_nil x)
  | [y], h => by
    simp only [List.mem_singleton] at h
    simp [listMin, h]
  | y :: z :: t, h => by
    rcases List.mem_cons.mp h with rfl | h2
    · simp [listMin]
    · exact le_trans (min_le_right _ _) (listMin_le_of_mem h2)

theorem le_listMax_of_mem {x : ℚ} : ∀ {l : List ℚ}, x ∈ l → x ≤ listMax l
  | [], h => absurd h (List.not_mem_nil x)
  | [y], h => by
    simp only [List.mem_singleton] at h
    simp [listMax, h]
  | y :: z :: t, h => by
    rcases List.mem_cons.mp h with rfl | h2
    · simp [listMax]
    · exact le_trans (le_listMax_of_mem h2) (le_max_right _ _)

theorem minmaxNorm_bounds {xs : List ℚ} {x : ℚ} (hx : x ∈ xs) :
    0 ≤ minmaxNorm xs x ∧ minmaxNorm xs x ≤ 1 := by
  unfold minmaxNorm
  split
  · norm_num
  · next hne =>
    have h1 : listMin xs ≤ x := listMin_le_of_mem hx
    have h2 : x ≤ listMax xs := le_listMax_of_mem hx
    have hlt : listMin xs < listMax xs :=
      lt_of_le_of_ne (le_trans h1 h2) (fun h => hne h.symm)
    constructor
    · exact div_nonneg (sub_nonneg.mpr h1) (le_of_lt (sub_pos.mpr hlt))
    · exact (div_le_one (sub_pos.mpr hlt)).mpr (sub_le_sub_right h2 _)

theorem minmaxNorm_listMin (xs : List ℚ) : minmaxNorm xs (listMin xs) = 0 := by
  unfold minmaxNorm
  split
  · rfl
  · simp

theorem minmaxNorm_listMax {xs : List ℚ} (h : ¬ listMax xs = listMin xs) :
    minmaxNorm xs (listMax xs) = 1 := by
  unfold minmaxNorm
  rw [if_neg h]
  exact div_self (sub_ne_zero.mpr h)

theorem listMax_of_const {v : ℚ} : ∀ {l : List ℚ}, l ≠ [] → (∀ x ∈ l, x = v) → listMax l = v
  | [], h, _ => absurd rfl h
  | [x], _, hc => by simp [listMax, hc x (by simp)]
  | x :: y :: t, _, hc => by
    have ht : listMax (y :: t) = v :=
      listMax_of_const (by simp) (fun z hz => hc z (List.mem_cons_of_mem x hz))
    simp [listMax, ht, hc x (by simp)]

theorem listMin_of_const {v : ℚ} : ∀ {l : List ℚ}, l ≠ [] → (∀ x ∈ l, x = v) → listMin l = v
  | [], h, _ => absurd rfl h
  | [x], _, hc => by simp [listMin, hc x (by simp)]
  | x :: y :: t, _, hc => by
    have ht : listMin (y :: t) = v :=
      listMin_of_const (by simp) (fun z hz => hc z (List.mem_cons_of_mem x hz))
    simp [listMin, ht, hc x (by simp)]

theorem le_foldl_max : ∀ (l : List Int) (a : Int),
    a ≤ l.foldl max a ∧ ∀ x ∈ l, x ≤ l.foldl max a
  | [], a => by simp
  | b :: t, a => by
    have ih := le_foldl_max t (max a b)
    simp only [List.foldl_cons]
    refine ⟨le_trans (le_max_left a b) ih.1, fun x hx => ?_⟩
    rcases List.mem_cons.mp hx with rfl | h2
    · exact le_trans (le_max_right a x) ih.1
    · exact ih.2 x h2

theorem year_le_latestYear {df : List Row} {r : Row} {y : Int}
    (hr : r ∈ df) (hy : latestYear df = some y) : r.year ≤ y := by
  cases df with
  | nil => cases hr
  | cons d ds =>
    simp only [latestYear, List.map_cons] at hy
    injection hy with hy
    subst hy
    rcases List.mem_cons.mp hr with rfl | h2
    · exact (le_foldl_max _ _).1
    · exact (le_foldl_max _ _).2 _ (List.mem_map.mpr ⟨r, h2, rfl⟩)

/-- Claim C1: every row returned by the Selector has Investment Score above
0.7, gdp_per_capita above 3000 and renewable share above 20; a missing
value compares as not-greater-than its threshold; and a row failing the
predicate is excluded from the recommendation sequence. -/
theorem C1_selector_thresholds (scored : List ScoredRow) (sr : ScoredRow) :
    (sr ∈ promising_countries scored →
      (0.7 : ℚ) < sr.invScore ∧ optGT sr.row.gdp_per_capita 3000 = true ∧
        optGT sr.row.renewable_share 20 = true)
    ∧ (∀ t : ℚ, optGT none t = false)
    ∧ (passesFilter sr = false → sr ∉ promising_countries scored) := by
  refine ⟨fun hmem => ?_, fun t => rfl, fun hfail hmem => ?_⟩
  · have h := (mem_promising_countries.mp hmem).2
    simp only [passesFilter, Bool.and_eq_true, decide_eq_true_eq] at h
    exact ⟨h.1.1, h.1.2, h.2⟩
  · have htrue := (mem_promising_countries.mp hmem).2
    rw [hfail] at htrue
    exact Bool.noConfusion htrue

/-- Witness for C1: on the worked two-row snapshot, the recommended row A
satisfies all three thresholds, and row B, which fails the score threshold,
is excluded. -/
theorem C1_witness :
    ((0.7 : ℚ) < scoredA.invScore ∧ optGT scoredA.row.gdp_per_capita 3000 = true ∧
        optGT scoredA.row.renewable_share 20 = true)
    ∧ scoredB ∉ promising_countries (scoreSnapshot [rowA, rowB]) :=
  ⟨(C1_selector_thresholds (scoreSnapshot [rowA, rowB]) scoredA).1 (by
      have h : promising_countries (scoreSnapshot [rowA, rowB]) = [scoredA] := by
        norm_num [promising_countries, scoreSnapshot, sort_values_desc, sortAscByScore, insertAsc,
          passesFilter, optGT, investmentScore, normalizedFactor, minmaxNorm, factorCol, factorVal,
          listMax, listMin, sustainabilityScore, rowA, rowB, scoredA]
      rw [h]
      exact List.mem_singleton.mpr rfl),
   (C1_selector_thresholds (scoreSnapshot [rowA, rowB]) scoredB).2.2 (by
      norm_num [passesFilter, optGT, scoredB, rowB])⟩

/-- Claim C2 as amended: the weights sum to 1; a row at every snapshot
minimum scores 0; a row at every snapshot maximum scores 1 provided each
factor column is non-constant (a constant column normalizes to 0, so the
original claim fails there). -/
theorem C2_amended_weights_and_extremes (snap : List Row) (r : Row) (_hr : r ∈ snap) :
    ((0.3 : ℚ) + 0.4 + 0.2 + 0.1 = 1)
    ∧ ((∀ f, factorVal f r = listMax (factorCol f snap)) →
        (∀ f, ¬ listMax (factorCol f snap) = listMin (factorCol f snap)) →
        investmentScore snap r = 1)
    ∧ ((∀ f, factorVal f r = listMin (factorCol f snap)) → investmentScore snap r = 0) := by
  refine ⟨by norm_num, fun hmax hne => ?_, fun hmin => ?_⟩
  · have h : ∀ f, normalizedFactor f snap r = 1 := fun f => by
      rw [normalizedFactor, hmax f]
      exact minmaxNorm_listMax (hne f)
    simp only [investmentScore, h]
    norm_num
  · have h : ∀ f, normalizedFactor f snap r = 0 := fun f => by
      rw [normalizedFactor, hmin f]
      exact minmaxNorm_listMin _
    simp only [investmentScore, h]
    norm_num

/-- Counterexample to C2 as stated: in the one-row snapshot of row A, row A
holds every factor at its snapshot maximum, yet its Investment Score is 0,
not 1, because every column is constant and normalizes to 0. -/
theorem C2_counterexample :
    factorVal Factor.access rowA = listMax (factorCol Factor.access [rowA])
    ∧ factorVal Factor.renewable rowA = listMax (factorCol Factor.renewable [rowA])
    ∧ factorVal Factor.gdp rowA = listMax (factorCol Factor.gdp [rowA])
    ∧ factorVal Factor.capacity rowA = listMax (factorCol Factor.capacity [rowA])
    ∧ ¬ investmentScore [rowA] rowA = 1 := by
  refine ⟨?_, ?_, ?_, ?_, ?_⟩ <;>
    norm_num [investmentScore, normalizedFactor, minmaxNorm, factorCol, factorVal,
      listMax, listMin, rowA]

/-- Witness for the amended C2: in the two-row snapshot of rows A and B,
row A (all maxima, all columns non-constant) scores exactly 1 and row B
(all minima) scores exactly 0, and the weights sum to 1. -/
theorem C2_witness :
    ((0.3 : ℚ) + 0.4 + 0.2 + 0.1 = 1)
    ∧ investmentScore [rowA, rowB] rowA = 1
    ∧ investmentScore [rowA, rowB] rowB = 0 :=
  ⟨(C2_amended_weights_and_extremes [rowA, rowB] rowA (by decide)).1,
   (C2_amended_weights_and_extremes [rowA, rowB] rowA (by decide)).2.1
     (by intro f; cases f <;> decide) (by intro f; cases f <;> decide),
   (C2_amended_weights_and_extremes [rowA, rowB] rowB (by decide)).2.2
     (by intro f; cases f <;> decide)⟩

/-- Claim C3: when every row of the snapshot has the same value for one of
the four scored factors, the Scorer normalizes that factor to the defined
number 0 for every row, with no division by zero. -/
theorem C3_constant_factor_normalizes_to_zero (f : Factor) (snap : List Row) (v : ℚ)
    (hconst : ∀ r ∈ snap, factorVal f r = v) (r : Row) (hr : r ∈ snap) :
    normalizedFactor f snap r = 0 := by
  have hne : factorCol f snap ≠ [] := by
    cases snap with
    | nil => cases hr
    | cons a t => simp [factorCol]
  have hcol : ∀ x ∈ factorCol f snap, x = v := by
    intro x hx
    obtain ⟨r0, hr0, rfl⟩ := List.mem_map.mp hx
    exact hconst r0 hr0
  have hmax : listMax (factorCol f snap) = v := listMax_of_const hne hcol
  have hmin : listMin (factorCol f snap) = v := listMin_of_const hne hcol
  unfold normalizedFactor minmaxNorm
  rw [if_pos (by rw [hmax, hmin])]

/-- Witness for C3: rows A and C share electricity access 80, and the
normalized access of row A in that snapshot is 0. -/
theorem C3_witness : normalizedFactor Factor.access [rowA, rowC] rowA = 0 :=
  C3_constant_factor_normalizes_to_zero Factor.access [rowA, rowC] 80
    (by decide) rowA (by decide)

/-- Claim C4: the latest snapshot holds exactly the rows of the dataframe
whose Year equals the maximum Year (same multiplicity, nothing else), and
every row of the snapshot has a Year at least that of every dataframe
row. -/
theorem C4_latest_snapshot_exact (ds : List Row) (r : Row) :
    (List.count r (latestSnapshot ds) =
      if latestYear ds = some r.year then List.count r ds else 0)
    ∧ (r ∈ latestSnapshot ds → ∀ rp ∈ ds, rp.year ≤ r.year) := by
  constructor
  · by_cases hy : latestYear ds = some r.year
    · rw [if_pos hy]
      exact List.count_filter (by simp [hy])
    · rw [if_neg hy]
      refine List.count_eq_zero.mpr (fun hmem => hy ?_)
      have h2 := (List.mem_filter.mp hmem).2
      simpa using h2
  · intro hmem rp hrp
    have h2 := (List.mem_filter.mp hmem).2
    have hy : latestYear ds = some r.year := by simpa using h2
    exact year_le_latestYear hrp hy

/-- Witness for C4: in a dataframe holding a 2019 row and a 2020 row, the
snapshot count of the 2020 row matches the theorem and the 2019 row has a
smaller Year. -/
theorem C4_witness :
    (List.count rowA (latestSnapshot [rowD, rowA]) =
      if latestYear [rowD, rowA] = some rowA.year then List.count rowA [rowD, rowA] else 0)
    ∧ rowD.year ≤ rowA.year :=
  ⟨(C4_latest_snapshot_exact [rowD, rowA] rowA).1,
   (C4_latest_snapshot_exact [rowD, rowA] rowA).2 (by decide) rowD (by decide)⟩

/-- Claim C5: the Selector sort of the surviving rows by Investment Score
descending is stable: two surviving rows with equal Investment Score keep
their relative input order in the recommendation list.  The pandas
descending path reverses the input before the stable ascending argsort and
reverses the result after, and the two reversals cancel on ties. -/
theorem C5_stable_descending_ties (scored : List ScoredRow) (r1 r2 : ScoredRow)
    (hsub : List.Sublist [r1, r2] scored) (heq : r1.invScore = r2.invScore)
    (h1 : passesFilter r1 = true) (h2 : passesFilter r2 = true) :
    List.Sublist [r1, r2] (promising_countries scored) := by
  have hfil : List.Sublist [r1, r2] (scored.filter passesFilter) := by
    have h := hsub.filter passesFilter
    rwa [show List.filter passesFilter [r1, r2] = [r1, r2] by simp [List.filter, h1, h2]] at h
  have hrev : List.Sublist [r2, r1] (scored.filter passesFilter).reverse := by
    simpa using hfil.reverse
  have hs := sublist_sortAsc_of_tie hrev heq.symm
  have hfin := hs.reverse
  simpa [promising_countries, sort_values_desc] using hfin

/-- Witness for C5: scored rows A and C tie in the three-row snapshot, both
pass the filter, and they appear in the recommendation list in their input
order A, C. -/
theorem C5_stable_witness :
    List.Sublist [scoredA, scoredC] (promising_countries (scoreSnapshot [rowA, rowC, rowB])) :=
  C5_stable_descending_ties (scoreSnapshot [rowA, rowC, rowB]) scoredA scoredC
    (by
      have h : scoreSnapshot [rowA, rowC, rowB] = [scoredA, scoredC, scoredB] := by
        norm_num [scoreSnapshot, sustainabilityScore, investmentScore, normalizedFactor,
          minmaxNorm, factorCol, factorVal, listMax, listMin, rowA, rowB, rowC,
          scoredA, scoredB, scoredC]
      rw [h]
      exact List.sublist_append_left [scoredA, scoredC] [scoredB])
    rfl
    (by norm_num [passesFilter, optGT, scoredA, rowA])
    (by norm_num [passesFilter, optGT, scoredC, rowC, rowA])

/-- Claim C6: a non-numeric text cell in any of the three coerced columns
loads as a missing value; the coercion is a total function, so no exception
is raised and no error surfaces. -/
theorem C6_coercion_errors_become_missing (raw : RawRow) (s : String) :
    (raw.renewable_share = Cell.text s → (loadRow raw).renewable_share = none)
    ∧ (raw.gdp_per_capita = Cell.text s → (loadRow raw).gdp_per_capita = none)
    ∧ (raw.co2 = Cell.text s → (loadRow raw).co2 = none) := by
  refine ⟨fun h => ?_, fun h => ?_, fun h => ?_⟩ <;> simp [loadRow, h, toNumeric]

/-- Witness for C6: a raw row whose three coerced cells hold non-numeric
text loads with all three fields missing. -/
theorem C6_witness :
    (loadRow rawBad).renewable_share = none
    ∧ (loadRow rawBad).gdp_per_capita = none
    ∧ (loadRow rawBad).co2 = none :=
  ⟨(C6_coercion_errors_become_missing rawBad naText).1 rfl,
   (C6_coercion_errors_become_missing rawBad naText).2.1 rfl,
   (C6_coercion_errors_become_missing rawBad naText).2.2 rfl⟩

/-- Claim C7: every scored snapshot row carries the Sustainability Score
computed by the spec formula renewable(or 0) + access(or 0) +
(100 - intensity(or 0)/10), and the formula is unclamped: it can go
negative for large energy intensity and can exceed 200. -/
theorem C7_sustainability_formula_no_clamp (snap : List Row) (sr : ScoredRow)
    (h : sr ∈ scoreSnapshot snap) :
    sr.sustainability =
      specSustainability sr.row.renewable_share sr.row.electricity_access sr.row.energy_intensity
    ∧ (∃ r : Row, sustainabilityScore r < 0)
    ∧ (∃ r : Row, 200 < sustainabilityScore r) := by
  obtain ⟨r, hr, rfl⟩ := List.mem_map.mp h
  refine ⟨rfl, ⟨rowNeg, ?_⟩, ⟨rowBig, ?_⟩⟩ <;>
    norm_num [sustainabilityScore, rowNeg, rowBig, rowA]

/-- Witness for C7: the scored row A of the two-row snapshot carries exactly
the spec formula value. -/
theorem C7_witness :
    scoredA.sustainability =
      specSustainability scoredA.row.renewable_share scoredA.row.electricity_access
        scoredA.row.energy_intensity :=
  (C7_sustainability_formula_no_clamp [rowA, rowB] scoredA (by
    norm_num [scoreSnapshot, sustainabilityScore, investmentScore, normalizedFactor,
      minmaxNorm, factorCol, factorVal, listMax, listMin, rowA, rowB, scoredA])).1

/-- Claim C8: the pipeline never mutates the full dataset - its dataframe
component is exactly what the loader parsed - and adding the two score
columns leaves every underlying row field unchanged. -/
theorem C8_pipeline_preserves_dataset (raw : List RawRow) (snap : List Row) :
    (pipeline raw).1 = raw.map loadRow
    ∧ (scoreSnapshot snap).map ScoredRow.row = snap := by
  refine ⟨rfl, ?_⟩
  simp [scoreSnapshot, List.map_map, Function.comp_def]

/-- Claim C9: on the worked two-row snapshot of the spec, every factor of
row A normalizes to 1 and every factor of row B to 0, their Investment
Scores are 1 and 0, row B cannot pass the score threshold, and the
recommendation list is exactly row A. -/
theorem C9_worked_example :
    normalizedFactor Factor.access [rowA, rowB] rowA = 1
    ∧ normalizedFactor Factor.renewable [rowA, rowB] rowA = 1
    ∧ normalizedFactor Factor.gdp [rowA, rowB] rowA = 1
    ∧ normalizedFactor Factor.capacity [rowA, rowB] rowA = 1
    ∧ normalizedFactor Factor.access [rowA, rowB] rowB = 0
    ∧ normalizedFactor Factor.renewable [rowA, rowB] rowB = 0
    ∧ normalizedFactor Factor.gdp [rowA, rowB] rowB = 0
    ∧ normalizedFactor Factor.capacity [rowA, rowB] rowB = 0
    ∧ investmentScore [rowA, rowB] rowA = 1
    ∧ investmentScore [rowA, rowB] rowB = 0
    ∧ ¬ (0.7 : ℚ) < investmentScore [rowA, rowB] rowB
    ∧ (promising_countries (scoreSnapshot [rowA, rowB])).map ScoredRow.row = [rowA] := by
  refine ⟨?_, ?_, ?_, ?_, ?_, ?_, ?_, ?_, ?_, ?_, ?_, ?_⟩ <;>
    norm_num [promising_countries, scoreSnapshot, sort_values_desc, sortAscByScore, insertAsc,
      passesFilter, optGT, investmentScore, normalizedFactor, minmaxNorm, factorCol, factorVal,
      listMax, listMin, sustainabilityScore, rowA, rowB]

theorem investmentScore_bounds {snap : List Row} {r : Row} (hr : r ∈ snap) :
    0 ≤ investmentScore snap r ∧ investmentScore snap r ≤ 1 := by
  have hb : ∀ f, 0 ≤ normalizedFactor f snap r ∧ normalizedFactor f snap r ≤ 1 := fun f =>
    minmaxNorm_bounds (List.mem_map.mpr ⟨r, hr, rfl⟩)
  have ha := hb Factor.access
  have hre := hb Factor.renewable
  have hg := hb Factor.gdp
  have hc := hb Factor.capacity
  unfold investmentScore
  constructor <;> nlinarith [ha.1, ha.2, hre.1, hre.2, hg.1, hg.2, hc.1, hc.2]

/-- Claim C10: the Investment Score of every scored snapshot row lies in the
closed interval from 0 to 1; it is a total rational value, never
missing. -/
theorem C10_investment_score_in_unit_interval (snap : List Row) (sr : ScoredRow)
    (h : sr ∈ scoreSnapshot snap) : 0 ≤ sr.invScore ∧ sr.invScore ≤ 1 := by
  obtain ⟨r, hr, rfl⟩ := List.mem_map.mp h
  exact investmentScore_bounds hr

/-- Witness for C10: the scored row A of the two-row snapshot has its score
1 inside the unit interval. -/
theorem C10_witness : 0 ≤ scoredA.invScore ∧ scoredA.invScore ≤ 1 :=
  C10_investment_score_in_unit_interval [rowA, rowB] scoredA (by
    norm_num [scoreSnapshot, sustainabilityScore, investmentScore, normalizedFactor,
      minmaxNorm, factorCol, factorVal, listMax, listMin, rowA, rowB, scoredA])
